import Mathlib

/-!
Verification of the yoga session timeline engine.

The definitions below are a shallow embedding of the JavaScript source:

* `calculateItemTimings`, `totalDuration`, `totalDurationMs`,
  `currentItemIndex`, `handleStartStop`, `handleReset`, `tick`,
  `handleNext`, `handlePrevious` follow `src/app/components/Navbar.js`
  (the timeline page variant that handles mixed exercise/story items);
* `sessionItems`, `itemMap` follow `src/app/page.js` / `Navbar.js`;
* `moveItem` follows the `handleDrop` reorder logic of `src/app/page.js`
  and `src/app/sessions/page.js` (JavaScript `Array.prototype.splice`
  semantics, including its behaviour on out-of-range indices);
* `formProjection`, `getCardType` follow the `SessionForm` rendering in
  `src/app/sessions/page.js`;
* `validateStory`, `updateStory`, `validatePractical`, `updatePractical`
  follow `src/lib/storyStorage.js` and `src/lib/practicalStorage.js`.

JavaScript numbers are modelled as rationals (all arithmetic in the
sources is exact on the inputs of interest), `x || 0` on an optional
numeric field as `Option.getD 0`, and JavaScript `Map` insertion as a
last-write-wins functional update.
-/

namespace Yoga

/-- The `type` discriminant carried by items: stories and practicals are
tagged by their storage modules, everything else is an exercise. -/
inductive ItemType where
  | exercise
  | story
  | practical
deriving DecidableEq, Repr

/-- An item as consumed by the timeline page: exercises carry
`duration_minutes`, stories and practicals carry `time`.  Absent fields
are `none` (JavaScript `undefined`). -/
structure Item where
  id : String
  type : ItemType
  title : String
  time : Option ℚ
  duration_minutes : Option ℚ
deriving DecidableEq, Repr

/-- A timed segment produced by `calculateItemTimings` in `Navbar.js`:
the spread item plus `uniqueIndex`, `startMs`, `endMs`, `durationMs` and
the normalised `duration_minutes`. -/
structure Segment where
  item : Item
  uniqueIndex : ℕ
  startMs : ℚ
  endMs : ℚ
  durationMs : ℚ
  duration_minutes : ℚ
deriving DecidableEq, Repr

/-- `item.type === 'story' ? (item.time || 0) : (item.duration_minutes || 0)`
from `calculateItemTimings` in `Navbar.js`. -/
def itemDurationMinutes (it : Item) : ℚ :=
  if it.type = ItemType.story then it.time.getD 0 else it.duration_minutes.getD 0

/-- The loop body of `calculateItemTimings`: `cum` is the running
`cumulativeMs`, `idx` the map index. -/
def calcAux (cum : ℚ) (idx : ℕ) : List Item → List Segment
  | [] => []
  | it :: rest =>
    let dm := itemDurationMinutes it
    let d := dm * 60 * 1000
    { item := it, uniqueIndex := idx, startMs := cum, endMs := cum + d,
      durationMs := d, duration_minutes := dm } :: calcAux (cum + d) (idx + 1) rest

/-- `calculateItemTimings(sessionItems)` from `Navbar.js` lines 70-92. -/
def calculateItemTimings (items : List Item) : List Segment :=
  calcAux 0 0 items

/-- `totalDuration` from `Navbar.js` lines 222-227:
`sessionItems.reduce((sum, item) => sum + (item.duration_minutes || 0), 0)`.
Note that it reads the raw `duration_minutes` field of every item,
regardless of the item type. -/
def totalDuration (items : List Item) : ℚ :=
  items.foldl (fun sum it => sum + it.duration_minutes.getD 0) 0

/-- `totalDurationMs = totalDuration * 60 * 1000` (`Navbar.js` line 227). -/
def totalDurationMs (items : List Item) : ℚ :=
  totalDuration items * 60 * 1000

/-! ### Basic structure of the computed timeline -/

theorem length_calcAux (cum : ℚ) (idx : ℕ) (items : List Item) :
    (calcAux cum idx items).length = items.length := by
  induction items generalizing cum idx with
  | nil => rfl
  | cons it rest ih => simp [calcAux, ih]

theorem calcAux_head_startMs (cum : ℚ) (idx : ℕ) (items : List Item)
    (h : calcAux cum idx items ≠ []) :
    ((calcAux cum idx items).head h).startMs = cum := by
  cases items with
  | nil => simp [calcAux] at h
  | cons it rest => rfl

theorem calcAux_adjacent (items : List Item) (cum : ℚ) (idx : ℕ)
    (i : ℕ) (hi : i + 1 < (calcAux cum idx items).length) :
    ((calcAux cum idx items).get ⟨i, Nat.lt_of_succ_lt hi⟩).endMs
      = ((calcAux cum idx items).get ⟨i + 1, hi⟩).startMs := by
  induction items generalizing cum idx i with
  | nil => simp [calcAux] at hi
  | cons it rest ih =>
    cases i with
    | zero =>
      have hne : calcAux (cum + itemDurationMinutes it * 60 * 1000) (idx + 1) rest ≠ [] := by
        intro hemp
        simp [calcAux, hemp] at hi
      cases hrest : calcAux (cum + itemDurationMinutes it * 60 * 1000) (idx + 1) rest with
      | nil => exact absurd hrest hne
      | cons s tl =>
        have hs : s.startMs = cum + itemDurationMinutes it * 60 * 1000 := by
          have := calcAux_head_startMs (cum + itemDurationMinutes it * 60 * 1000)
            (idx + 1) rest hne
          simpa [hrest] using this
        simp [calcAux, hrest, hs]
    | succ j =>
      have hi' : j + 1 < (calcAux (cum + itemDurationMinutes it * 60 * 1000) (idx + 1) rest).length := by
        simpa [calcAux] using Nat.lt_of_succ_lt_succ hi
      simpa [calcAux] using ih (cum + itemDurationMinutes it * 60 * 1000) (idx + 1) j hi'

/-- Claim C1: for every resolved item list, the timed segments produced by
`calculateItemTimings` start at 0 and are contiguous: the first segment's
`startMs` is 0, and each segment's `endMs` equals the next segment's
`startMs`. -/
theorem C1_timeline_contiguity (items : List Item) :
    (∀ h : calculateItemTimings items ≠ [],
      ((calculateItemTimings items).head h).startMs = 0) ∧
    ∀ i : ℕ, ∀ hi : i + 1 < (calculateItemTimings items).length,
      ((calculateItemTimings items).get ⟨i, Nat.lt_of_succ_lt hi⟩).endMs
        = ((calculateItemTimings items).get ⟨i + 1, hi⟩).startMs := by
  constructor
  · intro h
    exact calcAux_head_startMs 0 0 items h
  · intro i hi
    exact calcAux_adjacent items 0 0 i hi

/-- A two-item timeline (a 5-minute exercise followed by a 2-minute
story) used to instantiate the general theorems on a concrete input. -/
def demoItems : List Item :=
  [{ id := "1", type := ItemType.exercise, title := "Sonnengruss",
     time := none, duration_minutes := some 5 },
   { id := "story-1", type := ItemType.story, title := "Intro",
     time := some 2, duration_minutes := none }]

theorem C1_timeline_contiguity_witness :
    ((calculateItemTimings demoItems).head (by decide)).startMs = 0 ∧
    ((calculateItemTimings demoItems).get ⟨0, by decide⟩).endMs
      = ((calculateItemTimings demoItems).get ⟨1, by decide⟩).startMs :=
  ⟨(C1_timeline_contiguity demoItems).1 (by decide),
   (C1_timeline_contiguity demoItems).2 0 (by decide)⟩

/-- A session consisting of a single story whose `time` is 2 minutes:
the failing input for the duration-additivity property. -/
def storyOnlyItems : List Item :=
  [{ id := "story-1", type := ItemType.story, title := "Intro",
     time := some 2, duration_minutes := none }]

/-- Claim C2 evaluated at a failing input: a session consisting of a
single story whose `time` is 2 minutes.  The timed segment carries
`durationMs = 120000` (stories use their `time` field in
`calculateItemTimings`), but `totalDuration` sums the raw
`duration_minutes` field, which stories do not have, so
`totalDurationMs = 0`: the transport's total is NOT the sum of the
segment durations. -/
theorem C2_duration_additivity_fails_on_story :
    totalDurationMs storyOnlyItems = 0 ∧
    ((calculateItemTimings storyOnlyItems).map (fun s => s.durationMs)).sum = 120000 ∧
    (0 : ℚ) ≠ 120000 := by
  refine ⟨?_, ?_, by norm_num⟩
  · norm_num [totalDurationMs, totalDuration, storyOnlyItems]
  · norm_num [calculateItemTimings, calcAux, itemDurationMinutes, storyOnlyItems]

/-! ### Item resolver: id classification and the lookup map -/

/-- `s.startsWith(p)` on JavaScript strings, modelled on the underlying
character lists (so that it evaluates by kernel reduction). -/
def strStartsWith (s p : String) : Bool :=
  p.data.isPrefixOf s.data

/-- `isStoryId` from `storyStorage.js`: a pure test for the `story-`
id pattern. -/
def isStoryId (id : String) : Bool :=
  strStartsWith id "story-"

/-- `isPracticalId` from `practicalStorage.js`. -/
def isPracticalId (id : String) : Bool :=
  strStartsWith id "practical-"

/-- `getCardType` from `sessions/page.js`. -/
def getCardType (id : String) : ItemType :=
  if isStoryId id then ItemType.story
  else if isPracticalId id then ItemType.practical
  else ItemType.exercise

/-- `{ ...s, type: 'story' }`: the tagging applied to stories as they are
put into the item map. -/
def tagStory (s : Item) : Item :=
  { s with type := ItemType.story }

/-- One `map.set(it.id, it)` step on a JavaScript `Map`, modelled as a
functional update: the new binding wins over any previous one. -/
def mapInsert (m : String → Option Item) (it : Item) : String → Option Item :=
  fun k => if k = it.id then some it else m k

/-- `items.forEach(e => map.set(e.id, e))`. -/
def registerAll (m : String → Option Item) (items : List Item) : String → Option Item :=
  items.foldl mapInsert m

/-- The `itemMap` of `page.js` / `Navbar.js`: default exercises first,
then stored exercises, then stories tagged with `type: 'story'`. -/
def itemMap (defaults stored stories : List Item) : String → Option Item :=
  registerAll (registerAll (registerAll (fun _ => none) defaults) stored)
    (stories.map tagStory)

/-- `sessionItems` from `page.js` lines 146-157 / `Navbar.js`:
`order.map(id => itemMap.get(id)).filter(Boolean)` — unresolved ids are
dropped (after a console warning). -/
def sessionItems (order : List String) (m : String → Option Item) : List Item :=
  (order.map m).reduceOption

/-- An entry of the `SessionForm` item list in `sessions/page.js`:
either a rendered item or the "Element nicht gefunden" placeholder that
shows the displayed position and the raw id. -/
inductive FormEntry where
  | missing (position : ℕ) (rawId : String)
  | present (position : ℕ) (item : Item) (cardType : ItemType)
deriving DecidableEq, Repr

/-- The body of `formData.exercises.map((itemId, idx) => ...)` in
`sessions/page.js` lines 697-755: `idx` is the running index, the
displayed number is `idx + 1`. -/
def formAux (m : String → Option Item) (idx : ℕ) : List String → List FormEntry
  | [] => []
  | id :: rest =>
    (match m id with
      | none => FormEntry.missing (idx + 1) id
      | some it => FormEntry.present (idx + 1) it (getCardType id)) ::
      formAux m (idx + 1) rest

/-- The `SessionForm` render projection of the ordered id list. -/
def formProjection (order : List String) (m : String → Option Item) : List FormEntry :=
  formAux m 0 order

/-- The default exercise with id `"1"` from `data/yoga-data.js`. -/
def defaultEx1 : Item :=
  { id := "1", type := ItemType.exercise, title := "Sonnengruss",
    time := none, duration_minutes := some 5 }

/-- A user-created exercise that received the generated id `"1"`
(`generateId` in `exerciseStorage.js` starts at `'1'` whenever the
stored collection is empty). -/
def storedEx1 : Item :=
  { id := "1", type := ItemType.exercise, title := "Custom",
    time := none, duration_minutes := some 3 }

/-- Claim C3, falsified at the concrete input of Scenario D: with an
item map that resolves only the exercise `"1"`, the timeline resolution
of `['1', 'story-99']` silently drops the unresolved id — the result is
the single exercise, with no placeholder entry at position 2. -/
theorem C3_timeline_drops_unresolved :
    sessionItems ["1", "story-99"] (itemMap [defaultEx1] [] []) = [defaultEx1] ∧
    (sessionItems ["1", "story-99"] (itemMap [defaultEx1] [] [])).length ≠ 2 := by
  constructor
  · rfl
  · have h1 : (sessionItems ["1", "story-99"] (itemMap [defaultEx1] [] [])).length = 1 := rfl
    omega

theorem length_formAux (m : String → Option Item) (idx : ℕ) (order : List String) :
    (formAux m idx order).length = order.length := by
  induction order generalizing idx with
  | nil => rfl
  | cons id rest ih => simp [formAux, ih]

theorem formAux_get_missing (m : String → Option Item) (order : List String)
    (idx i : ℕ) (hi : i < order.length) (hm : m (order.get ⟨i, hi⟩) = none) :
    ∀ hlen : i < (formAux m idx order).length,
      (formAux m idx order).get ⟨i, hlen⟩
        = FormEntry.missing (idx + i + 1) (order.get ⟨i, hi⟩) := by
  induction order generalizing idx i with
  | nil => simp at hi
  | cons id rest ih =>
    intro hlen
    cases i with
    | zero =>
      simp only [List.get] at hm ⊢
      simp [formAux, hm]
    | succ j =>
      have hj : j < rest.length := Nat.lt_of_succ_lt_succ hi
      have hm' : m (rest.get ⟨j, hj⟩) = none := hm
      have := ih (idx + 1) j hj hm'
        (by simpa [formAux, length_formAux] using Nat.lt_of_succ_lt_succ hlen)
      simp only [formAux, List.get]
      rw [this]
      congr 1
      omega

theorem length_reduceOption_lt_of_none (order : List String)
    (m : String → Option Item) (i : ℕ) (hi : i < order.length)
    (hm : m (order.get ⟨i, hi⟩) = none) :
    ((order.map m).reduceOption).length < order.length := by
  induction order generalizing i with
  | nil => simp at hi
  | cons id rest ih =>
    have hle : ((rest.map m).reduceOption).length ≤ rest.length := by
      simpa using List.reduceOption_length_le (rest.map m)
    cases i with
    | zero =>
      have hid : m id = none := hm
      rw [List.map_cons, hid, List.reduceOption_cons_of_none]
      simp only [List.length_cons]
      omega
    | succ j =>
      have hj : j < rest.length := Nat.lt_of_succ_lt_succ hi
      have hlt := ih j hj hm
      rw [List.map_cons]
      cases hid : m id with
      | none =>
        rw [List.reduceOption_cons_of_none]
        simp only [List.length_cons]
        omega
      | some it =>
        rw [List.reduceOption_cons_of_some]
        simp only [List.length_cons]
        omega

/-- Claim C3, amended: the timeline resolution (`sessionItems`) excludes
every unresolvable identifier, so its result is strictly shorter than
the id list; the visible "missing" placeholder holding the raw id at the
original position is produced by the `SessionForm` render projection in
`sessions/page.js`, not by the timeline. -/
theorem C3_form_keeps_missing_placeholder (order : List String)
    (m : String → Option Item) (i : ℕ) (hi : i < order.length)
    (hm : m (order.get ⟨i, hi⟩) = none) :
    (formProjection order m).length = order.length ∧
    (∀ hlen : i < (formProjection order m).length,
      (formProjection order m).get ⟨i, hlen⟩
        = FormEntry.missing (i + 1) (order.get ⟨i, hi⟩)) ∧
    (sessionItems order m).length < order.length := by
  refine ⟨length_formAux m 0 order, ?_, ?_⟩
  · intro hlen
    have := formAux_get_missing m order 0 i hi hm hlen
    simpa using this
  · exact length_reduceOption_lt_of_none order m i hi hm

theorem C3_form_keeps_missing_placeholder_witness :
    (formProjection ["1", "story-99"] (itemMap [defaultEx1] [] [])).length = 2 ∧
    (∀ hlen : 1 < (formProjection ["1", "story-99"] (itemMap [defaultEx1] [] [])).length,
      (formProjection ["1", "story-99"] (itemMap [defaultEx1] [] [])).get ⟨1, hlen⟩
        = FormEntry.missing 2 "story-99") ∧
    (sessionItems ["1", "story-99"] (itemMap [defaultEx1] [] [])).length < 2 :=
  C3_form_keeps_missing_placeholder ["1", "story-99"] (itemMap [defaultEx1] [] [])
    1 (by decide) (by rfl)

/-- A stored story element. -/
def story1 : Item :=
  { id := "story-1", type := ItemType.story, title := "Intro",
    time := some 2, duration_minutes := none }

/-- Claim C9, falsified at a concrete input: the default exercise `"1"`
is registered first, and the stored exercise collection then carries the
same well-formed numeric id `"1"`; `Map.set` overwrites, so the lookup
returns the later item, not the earlier one. -/
theorem C9_later_collection_overwrites :
    itemMap [defaultEx1] [storedEx1] [] "1" = some storedEx1 ∧
    storedEx1 ≠ defaultEx1 := by
  constructor
  · rfl
  · intro h
    have : storedEx1.title = defaultEx1.title := by rw [h]
    simp [storedEx1, defaultEx1] at this

theorem registerAll_congr (m m' : String → Option Item) (items : List Item)
    (k : String) (h : m k = m' k) :
    registerAll m items k = registerAll m' items k := by
  induction items generalizing m m' with
  | nil => exact h
  | cons it rest ih =>
    exact ih (mapInsert m it) (mapInsert m' it) (by simp [mapInsert, h])

theorem registerAll_no_match (m : String → Option Item) (items : List Item)
    (k : String) (h : ∀ it ∈ items, it.id ≠ k) :
    registerAll m items k = m k := by
  induction items generalizing m with
  | nil => rfl
  | cons it rest ih =>
    have h0 : it.id ≠ k := h it (by simp)
    have hrest := ih (mapInsert m it) (fun x hx => h x (by simp [hx]))
    rw [registerAll, List.foldl_cons, ← registerAll, hrest]
    simp only [mapInsert]
    rw [if_neg (fun hk => h0 hk.symm)]

/-- Claim C9, amended: `Map.set` is last-write-wins, so a later
collection DOES overwrite an earlier entry carrying the same id (the
counterexample registers a stored exercise over the default exercise
`"1"`).  What does hold for well-formed ids is cross-kind isolation: a
`story-` key is resolved by the story collection alone, and a
non-`story-` key is resolved by the two exercise collections alone, so
the story collection never overwrites an exercise entry. -/
theorem C9_cross_kind_no_overwrite (ds ss sts : List Item) (k : String)
    (hds : ∀ e ∈ ds, isStoryId e.id = false)
    (hss : ∀ e ∈ ss, isStoryId e.id = false)
    (hst : ∀ s ∈ sts, isStoryId s.id = true) :
    (isStoryId k = true →
      itemMap ds ss sts k = registerAll (fun _ => none) (sts.map tagStory) k) ∧
    (isStoryId k = false →
      itemMap ds ss sts k = registerAll (registerAll (fun _ => none) ds) ss k) := by
  constructor
  · intro hk
    have h1 : ∀ e ∈ ss, e.id ≠ k := by
      intro e he hek
      have hcontra := hss e he
      rw [hek, hk] at hcontra
      cases hcontra
    have h2 : ∀ e ∈ ds, e.id ≠ k := by
      intro e he hek
      have hcontra := hds e he
      rw [hek, hk] at hcontra
      cases hcontra
    have hbase : registerAll (registerAll (fun _ => none) ds) ss k = none := by
      rw [registerAll_no_match _ ss k h1, registerAll_no_match _ ds k h2]
    exact registerAll_congr _ _ _ k hbase
  · intro hk
    apply registerAll_no_match
    intro it hit hik
    obtain ⟨s, hs, rfl⟩ := List.mem_map.mp hit
    have : isStoryId s.id = true := hst s hs
    rw [show (tagStory s).id = s.id from rfl] at hik
    rw [hik, hk] at this
    exact Bool.false_ne_true this

theorem C9_cross_kind_no_overwrite_witness :
    (isStoryId "story-1" = true →
      itemMap [defaultEx1] [storedEx1] [story1] "story-1"
        = registerAll (fun _ => none) ([story1].map tagStory) "story-1") ∧
    (isStoryId "story-1" = false →
      itemMap [defaultEx1] [storedEx1] [story1] "story-1"
        = registerAll (registerAll (fun _ => none) [defaultEx1]) [storedEx1] "story-1") :=
  C9_cross_kind_no_overwrite [defaultEx1] [storedEx1] [story1] "story-1"
    (by decide) (by decide) (by decide)

/-! ### Reorder engine: the drag-and-drop splice -/

/-- `newOrder.splice(dropIndex, 0, draggedItem)` for a non-negative
index: JavaScript clamps the insertion position to the array length. -/
def jsInsertAt (l : List (Option String)) (t : ℕ) (x : Option String) :
    List (Option String) :=
  l.take (min t l.length) ++ x :: l.drop (min t l.length)

/-- The reorder primitive implemented by `handleDrop` in `page.js` lines
288-304 and `sessions/page.js` lines 203-228, on JavaScript array slots
(`none` models `undefined`):
`if (draggedIndex === dropIndex) return` then
`const [draggedItem] = newOrder.splice(draggedIndex, 1)` (removing
nothing and yielding `undefined` when the index is past the end) and
`newOrder.splice(dropIndex, 0, draggedItem)`. -/
def moveItem (order : List (Option String)) (f t : ℕ) : List (Option String) :=
  if f = t then order
  else
    jsInsertAt (order.eraseIdx f) t ((order.get? f).getD none)

/-- Modelled from the spec: the `moveItem` contract of section 4.4 —
remove the element at `fromIndex`, reinsert it at `toIndex` in the
already-shortened list, and return the order unchanged when
`fromIndex == toIndex` or either index is out of bounds. -/
def moveItemSpec (order : List (Option String)) (f t : ℕ) : List (Option String) :=
  if f = t then order
  else if h : f < order.length ∧ t < order.length then
    (order.eraseIdx f).take t ++ order.get ⟨f, h.1⟩ :: (order.eraseIdx f).drop t
  else order

/-- The three-element order of Scenario C. -/
def orderABC : List (Option String) := [some "a", some "b", some "c"]

/-- Claim C4, falsified at a concrete input: with `toIndex = 3` out of
bounds for a three-element list, the claim demands the order back
unchanged, but the implemented splice clamps the insertion to the end
and performs the move. -/
theorem C4_out_of_bounds_not_noop :
    moveItem orderABC 0 3 = [some "b", some "c", some "a"] ∧
    moveItem orderABC 0 3 ≠ orderABC ∧
    moveItemSpec orderABC 0 3 = orderABC := by
  refine ⟨rfl, ?_, rfl⟩
  intro h
  have : some "b" = some "a" := congrArg (fun l => (l.get? 0).getD none) h
  simp at this

/-- Claim C4, amended: for in-bounds indices the implementation agrees
with the spec contract — list-splice semantics with a no-op on
`fromIndex == toIndex`; out-of-bounds indices are not guarded (an
out-of-bounds `toIndex` clamps to the end of the shortened list, an
out-of-bounds `fromIndex` splices in an `undefined` slot). -/
theorem C4_moveItem_splice_semantics (order : List (Option String)) (f t : ℕ)
    (hf : f < order.length) (ht : t < order.length) :
    moveItem order f t = moveItemSpec order f t := by
  unfold moveItem moveItemSpec
  by_cases hft : f = t
  · simp [hft]
  · have hget : order.get? f = some (order.get ⟨f, hf⟩) := List.get?_eq_get hf
    have hlen : (order.eraseIdx f).length + 1 = order.length :=
      List.length_eraseIdx_add_one hf
    have hmin : min t (order.eraseIdx f).length = t := by omega
    simp [hft, hf, ht, jsInsertAt, hget, hmin]

theorem C4_moveItem_splice_semantics_witness :
    moveItem orderABC 0 2 = moveItemSpec orderABC 0 2 ∧
    moveItem orderABC 0 2 = [some "b", some "c", some "a"] :=
  ⟨C4_moveItem_splice_semantics orderABC 0 2 (by decide) (by decide), rfl⟩

/-! ### Transport controller

The playback state of `Navbar.js`: `isRunning`/`elapsedMs` (React state,
with `elapsedMsRef` kept in sync), `startTimeRef` as the anchor, and the
scheduled animation frame.  `pending` holds the handle of the currently
scheduled `animate` callback (`animationRef`); every operation that
stops the transport runs the effect cleanup, which cancels it.  A tick
callback only fires if its handle is still the scheduled one —
`cancelAnimationFrame` prevents a cancelled callback from running. -/

structure TransportState where
  isRunning : Bool
  elapsedMs : ℚ
  anchor : ℚ
  pending : Option ℕ
  nextHandle : ℕ
deriving DecidableEq, Repr

/-- The state on session load: not running, zero elapsed time. -/
def initialTransport : TransportState :=
  { isRunning := false, elapsedMs := 0, anchor := 0, pending := none, nextHandle := 0 }

/-- `handleStartStop` from `Navbar.js` lines 334-346 together with the
running-effect of lines 301-332: stopping cancels the scheduled frame;
starting resets `elapsedMs` to 0 when it has reached the total, then the
effect sets `startTimeRef = now - elapsedMs` and schedules the first
frame. -/
def handleStartStop (totalMs now : ℚ) (st : TransportState) : TransportState :=
  if st.isRunning then
    { st with isRunning := false, pending := none }
  else
    let e := if totalMs ≤ st.elapsedMs then 0 else st.elapsedMs
    { st with isRunning := true, elapsedMs := e, anchor := now - e,
              pending := some st.nextHandle, nextHandle := st.nextHandle + 1 }

/-- The `animate` callback of `Navbar.js` lines 312-323, fired with
handle `h` at time `now`: it runs only if `h` is still the scheduled
frame; it computes `newElapsed = now - anchor`, clamps and stops at the
total, and otherwise stores the new elapsed time and schedules the next
frame. -/
def tick (totalMs : ℚ) (h : ℕ) (now : ℚ) (st : TransportState) : TransportState :=
  if st.pending = some h then
    let newElapsed := now - st.anchor
    if totalMs ≤ newElapsed then
      { st with elapsedMs := totalMs, isRunning := false, pending := none }
    else
      { st with elapsedMs := newElapsed, pending := some st.nextHandle,
                nextHandle := st.nextHandle + 1 }
  else st

/-- `handleReset` from `Navbar.js` lines 348-356 (stopping runs the
effect cleanup, cancelling the scheduled frame; `startTimeRef` is set to
`performance.now()`). -/
def handleReset (now : ℚ) (st : TransportState) : TransportState :=
  { st with isRunning := false, elapsedMs := 0, anchor := now, pending := none }

/-- The loop test of `currentItemIndex`:
`elapsedMs >= item.startMs && elapsedMs < item.endMs`. -/
def segContains (e : ℚ) (s : Segment) : Bool :=
  decide (s.startMs ≤ e) && decide (e < s.endMs)

/-- `currentItemIndex` from `Navbar.js` lines 229-244: `-1` on an empty
timeline, else the first segment whose half-open interval contains
`elapsedMs`, else the last index when `elapsedMs >= totalDurationMs`,
else `0`. -/
def currentItemIndex (e : ℚ) (tl : List Segment) (totalMs : ℚ) : ℤ :=
  if tl.length = 0 then -1
  else
    let i := tl.findIdx (segContains e)
    if i < tl.length then (i : ℤ)
    else if totalMs ≤ e then (tl.length : ℤ) - 1
    else 0

/-- `itemsWithTimes[targetIndex].startMs` for a target index. -/
def seekElapsed (tl : List Segment) (idx : ℕ) : ℚ :=
  ((tl.get? idx).map (fun s => s.startMs)).getD 0

/-- `handleNext` from `Navbar.js` lines 383-404: no-op on an empty
timeline; otherwise clamp `currentItemIndex + 1` to the last index, set
`elapsedMs` to the target segment's `startMs` and the anchor to
`now - newTime`.  Neither the running flag nor the scheduled frame is
touched. -/
def handleNext (tl : List Segment) (totalMs now : ℚ) (st : TransportState) :
    TransportState :=
  if tl.length = 0 then st
  else
    let target : ℤ :=
      min ((tl.length : ℤ) - 1) (currentItemIndex st.elapsedMs tl totalMs + 1)
    let newTime := seekElapsed tl target.toNat
    { st with elapsedMs := newTime, anchor := now - newTime }

/-- `handlePrevious` from `Navbar.js` lines 359-380: the symmetric
clamp `max 0 (currentItemIndex - 1)`. -/
def handlePrevious (tl : List Segment) (totalMs now : ℚ) (st : TransportState) :
    TransportState :=
  if tl.length = 0 then st
  else
    let target : ℤ := max 0 (currentItemIndex st.elapsedMs tl totalMs - 1)
    let newTime := seekElapsed tl target.toNat
    { st with elapsedMs := newTime, anchor := now - newTime }

/-- Claim C6: a tick whose recomputed elapsed time reaches the total
clamps `elapsedMs` to exactly `totalDurationMs` and stops; a start from
a not-running state whose elapsed time has reached the total first
resets `elapsedMs` to 0 and then runs with `anchor = now - elapsedMs`
(that is, `anchor = now`). -/
theorem C6_completion_clamp_then_restart (totalMs now : ℚ) (h : ℕ)
    (st : TransportState) :
    (st.pending = some h → totalMs ≤ now - st.anchor →
      tick totalMs h now st
        = { st with elapsedMs := totalMs, isRunning := false, pending := none }) ∧
    (st.isRunning = false → totalMs ≤ st.elapsedMs →
      handleStartStop totalMs now st
        = { st with isRunning := true, elapsedMs := 0, anchor := now,
                    pending := some st.nextHandle, nextHandle := st.nextHandle + 1 }) := by
  constructor
  · intro hp hclamp
    simp [tick, hp, hclamp]
  · intro hrun hdone
    simp [handleStartStop, hrun, hdone]

/-- A transport mid-run: elapsed 4000ms, anchor 0, one scheduled frame. -/
def runningAt4000 : TransportState :=
  { isRunning := true, elapsedMs := 4000, anchor := 0, pending := some 3, nextHandle := 4 }

theorem C6_completion_clamp_then_restart_witness :
    tick 10000 3 12000 runningAt4000
      = { runningAt4000 with elapsedMs := 10000, isRunning := false, pending := none } ∧
    handleStartStop 10000 500 { initialTransport with elapsedMs := 10000 }
      = { initialTransport with isRunning := true, elapsedMs := 0, anchor := 500,
                                pending := some 0, nextHandle := 1 } :=
  ⟨(C6_completion_clamp_then_restart 10000 12000 3 runningAt4000).1 rfl (by norm_num [runningAt4000]),
   (C6_completion_clamp_then_restart 10000 500 0
      { initialTransport with elapsedMs := 10000 }).2 rfl (by norm_num [initialTransport])⟩

/-- The failing input for the transport bound: a 10-minute story
followed by a 1-minute exercise.  `totalDurationMs` counts only the
exercise (60000ms) while the story segment occupies [0, 600000). -/
def mismatchItems : List Item :=
  [{ id := "story-1", type := ItemType.story, title := "Long intro",
     time := some 10, duration_minutes := none },
   { id := "1", type := ItemType.exercise, title := "Sonnengruss",
     time := none, duration_minutes := some 1 }]

/-- Claim C5 evaluated at a failing input: from the initial state of the
`mismatchItems` timeline, a single `next()` sets `elapsedMs` to the
second segment's `startMs = 600000`, which exceeds
`totalDurationMs = 60000` — the invariant
`elapsedMs ≤ totalDurationMs` does not survive the seek operations. -/
theorem C5_seek_exceeds_total :
    totalDurationMs mismatchItems = 60000 ∧
    (handleNext (calculateItemTimings mismatchItems) (totalDurationMs mismatchItems)
        0 initialTransport).elapsedMs = 600000 ∧
    ¬ ((handleNext (calculateItemTimings mismatchItems) (totalDurationMs mismatchItems)
        0 initialTransport).elapsedMs ≤ totalDurationMs mismatchItems) := by
  have htot : totalDurationMs mismatchItems = 60000 := by
    norm_num [totalDurationMs, totalDuration, mismatchItems]
  have htl : calculateItemTimings mismatchItems
      = [{ item := { id := "story-1", type := ItemType.story, title := "Long intro",
                     time := some 10, duration_minutes := none },
           uniqueIndex := 0, startMs := 0, endMs := 600000, durationMs := 600000,
           duration_minutes := 10 },
         { item := { id := "1", type := ItemType.exercise, title := "Sonnengruss",
                     time := none, duration_minutes := some 1 },
           uniqueIndex := 1, startMs := 600000, endMs := 660000, durationMs := 60000,
           duration_minutes := 1 }] := by
    have hne : ItemType.exercise ≠ ItemType.story := by decide
    norm_num [calculateItemTimings, calcAux, itemDurationMinutes, mismatchItems, hne]
  have hnext : (handleNext (calculateItemTimings mismatchItems)
      (totalDurationMs mismatchItems) 0 initialTransport).elapsedMs = 600000 := by
    rw [htl, htot]
    norm_num [handleNext, currentItemIndex, initialTransport, segContains,
      List.findIdx_cons, seekElapsed]
  refine ⟨htot, hnext, ?_⟩
  rw [hnext, htot]
  norm_num

/-- Scenario E timeline: two exercises of 6000ms and 4000ms
(`duration_minutes` 1/10 and 1/15), total 10000ms. -/
def scenEItems : List Item :=
  [{ id := "1", type := ItemType.exercise, title := "A",
     time := none, duration_minutes := some (1 / 10) },
   { id := "2", type := ItemType.exercise, title := "B",
     time := none, duration_minutes := some (1 / 15) }]

/-- The Scenario E timeline segments. -/
def tlE : List Segment := calculateItemTimings scenEItems

/-- The Scenario E total (10000ms). -/
def totE : ℚ := totalDurationMs scenEItems

/-- Transport started at `now = 0`. -/
def stE1 : TransportState := handleStartStop totE 0 initialTransport

/-- After `tick(4000)` with the initial frame handle. -/
def stE2 : TransportState := tick totE 0 4000 stE1

/-- After a `next()` at `now = 4000` (seeks to the second segment). -/
def stE3 : TransportState := handleNext tlE totE 4000 stE2

/-- The tick scheduled before the seek, firing at `now = 4100`. -/
def stE4 : TransportState := tick totE 1 4100 stE3

theorem totE_eq : totE = 10000 := by
  norm_num [totE, totalDurationMs, totalDuration, scenEItems]

theorem tlE_eq : tlE
    = [{ item := { id := "1", type := ItemType.exercise, title := "A",
                   time := none, duration_minutes := some (1 / 10) },
         uniqueIndex := 0, startMs := 0, endMs := 6000, durationMs := 6000,
         duration_minutes := 1 / 10 },
       { item := { id := "2", type := ItemType.exercise, title := "B",
                   time := none, duration_minutes := some (1 / 15) },
         uniqueIndex := 1, startMs := 6000, endMs := 10000, durationMs := 4000,
         duration_minutes := 1 / 15 }] := by
  have hne : ItemType.exercise ≠ ItemType.story := by decide
  norm_num [tlE, calculateItemTimings, calcAux, itemDurationMinutes, scenEItems, hne]

theorem stE1_eq : stE1
    = { isRunning := true, elapsedMs := 0, anchor := 0,
        pending := some 0, nextHandle := 1 } := by
  rw [stE1, totE_eq]
  norm_num [handleStartStop, initialTransport]

theorem stE2_eq : stE2
    = { isRunning := true, elapsedMs := 4000, anchor := 0,
        pending := some 1, nextHandle := 2 } := by
  rw [stE2, totE_eq, stE1_eq]
  norm_num [tick]

theorem stE3_eq : stE3
    = { isRunning := true, elapsedMs := 6000, anchor := -2000,
        pending := some 1, nextHandle := 2 } := by
  rw [stE3, totE_eq, tlE_eq, stE2_eq]
  norm_num [handleNext, currentItemIndex, segContains, List.findIdx_cons, seekElapsed]

theorem stE4_eq : stE4
    = { isRunning := true, elapsedMs := 6100, anchor := -2000,
        pending := some 2, nextHandle := 3 } := by
  rw [stE4, totE_eq, stE3_eq]
  norm_num [tick]

/-- Claim C7, falsified at a concrete input: a seek (`next()`) does NOT
cancel the scheduled frame.  In the Scenario E run, the tick with handle
1 was scheduled before the seek to 6000ms, yet when it fires afterwards
it still runs and changes `elapsedMs` from 6000 to 6100. -/
theorem C7_stale_tick_after_seek_changes_elapsed :
    stE3.pending = some 1 ∧
    stE3.elapsedMs = 6000 ∧
    stE4 = tick totE 1 4100 stE3 ∧
    stE4.elapsedMs = 6100 ∧
    (6100 : ℚ) ≠ 6000 := by
  refine ⟨?_, ?_, rfl, ?_, by norm_num⟩
  · rw [stE3_eq]
  · rw [stE3_eq]
  · rw [stE4_eq]

/-- Claim C7, amended: after `pause()` or `reset()` the scheduled frame
is cancelled, so any tick scheduled before that operation fires into a
cancelled handle and changes nothing — it can neither move `elapsedMs`
nor resurrect the stopped transport.  A seek does not cancel the
pending frame (the counterexample); its tick, however, recomputes from
the seek's updated anchor rather than stale data. -/
theorem C7_pause_reset_cancel_stale_tick (totalMs now now2 : ℚ) (h : ℕ)
    (st : TransportState) (hrun : st.isRunning = true) :
    tick totalMs h now2 (handleStartStop totalMs now st)
      = handleStartStop totalMs now st ∧
    tick totalMs h now2 (handleReset now st) = handleReset now st := by
  constructor
  · simp [handleStartStop, hrun, tick]
  · simp [handleReset, tick]

theorem C7_pause_reset_cancel_stale_tick_witness :
    tick totE 1 5000 (handleStartStop totE 4500 stE2)
      = handleStartStop totE 4500 stE2 ∧
    tick totE 1 5000 (handleReset 4500 stE2) = handleReset 4500 stE2 :=
  C7_pause_reset_cancel_stale_tick totE 4500 5000 1 stE2
    (by rw [stE2_eq])

/-! ### The active-segment derivation used by previous/next -/

theorem findIdx_eq_of_first {α : Type} (p : α → Bool) (l : List α) (i : ℕ)
    (hi : i < l.length) (hp : p (l.get ⟨i, hi⟩) = true)
    (hmin : ∀ j : ℕ, ∀ hj : j < l.length, j < i → p (l.get ⟨j, hj⟩) = false) :
    l.findIdx p = i := by
  induction l generalizing i with
  | nil => simp at hi
  | cons x xs ih =>
    cases i with
    | zero =>
      have hx : p x = true := hp
      simp [List.findIdx_cons, hx]
    | succ j =>
      have hx : p x = false := hmin 0 (by simp) (Nat.succ_pos j)
      have htail := ih j (Nat.lt_of_succ_lt_succ hi) hp
        (fun k hk hkj => hmin (k + 1) (by simpa using Nat.succ_lt_succ hk)
          (Nat.succ_lt_succ hkj))
      simp [List.findIdx_cons, hx, htail]

theorem findIdx_eq_length_of_none {α : Type} (p : α → Bool) (l : List α)
    (h : ∀ j : ℕ, ∀ hj : j < l.length, p (l.get ⟨j, hj⟩) = false) :
    l.findIdx p = l.length := by
  induction l with
  | nil => rfl
  | cons x xs ih =>
    have hx : p x = false := h 0 (by simp)
    have htail := ih (fun j hj => h (j + 1) (by simpa using Nat.succ_lt_succ hj))
    simp [List.findIdx_cons, hx, htail]

/-- Segment `j` of the timeline contains the elapsed time in its
half-open interval. -/
def containsAt (tl : List Segment) (e : ℚ) (j : ℕ) : Prop :=
  ∃ hj : j < tl.length,
    (tl.get ⟨j, hj⟩).startMs ≤ e ∧ e < (tl.get ⟨j, hj⟩).endMs

theorem segContains_eq_true_iff (e : ℚ) (s : Segment) :
    segContains e s = true ↔ (s.startMs ≤ e ∧ e < s.endMs) := by
  simp [segContains]

/-- The amended derivation contract for `previous()`/`next()` on a
non-empty timeline: the active index is in range; it is the FIRST
segment whose interval contains `elapsedMs`; only when no segment
contains `elapsedMs` does the controller fall back to the last index
(when the total has been reached) or to 0; `next()`/`previous()` clamp
the neighbor to `[0, lastIndex]` and set `elapsedMs` to the clamped
target segment's `startMs` with `anchor = now - elapsedMs`, leaving the
running flag and the scheduled frame untouched. -/
def prevNextSpec (tl : List Segment) (totalMs now : ℚ) (st : TransportState) : Prop :=
  (0 ≤ currentItemIndex st.elapsedMs tl totalMs ∧
    currentItemIndex st.elapsedMs tl totalMs < (tl.length : ℤ)) ∧
  (∀ i : ℕ, containsAt tl st.elapsedMs i →
    (∀ j : ℕ, j < i → ¬ containsAt tl st.elapsedMs j) →
    currentItemIndex st.elapsedMs tl totalMs = (i : ℤ)) ∧
  ((∀ j : ℕ, ¬ containsAt tl st.elapsedMs j) → totalMs ≤ st.elapsedMs →
    currentItemIndex st.elapsedMs tl totalMs = (tl.length : ℤ) - 1) ∧
  ((∀ j : ℕ, ¬ containsAt tl st.elapsedMs j) → st.elapsedMs < totalMs →
    currentItemIndex st.elapsedMs tl totalMs = 0) ∧
  (∃ hn : (min ((tl.length : ℤ) - 1)
      (currentItemIndex st.elapsedMs tl totalMs + 1)).toNat < tl.length,
    handleNext tl totalMs now st
      = { st with
          elapsedMs := (tl.get ⟨(min ((tl.length : ℤ) - 1)
            (currentItemIndex st.elapsedMs tl totalMs + 1)).toNat, hn⟩).startMs,
          anchor := now - (tl.get ⟨(min ((tl.length : ℤ) - 1)
            (currentItemIndex st.elapsedMs tl totalMs + 1)).toNat, hn⟩).startMs }) ∧
  (∃ hp : (max 0 (currentItemIndex st.elapsedMs tl totalMs - 1)).toNat < tl.length,
    handlePrevious tl totalMs now st
      = { st with
          elapsedMs := (tl.get ⟨(max 0
            (currentItemIndex st.elapsedMs tl totalMs - 1)).toNat, hp⟩).startMs,
          anchor := now - (tl.get ⟨(max 0
            (currentItemIndex st.elapsedMs tl totalMs - 1)).toNat, hp⟩).startMs })

theorem currentItemIndex_bounds (e : ℚ) (tl : List Segment) (totalMs : ℚ)
    (hne : tl.length ≠ 0) :
    0 ≤ currentItemIndex e tl totalMs ∧
      currentItemIndex e tl totalMs < (tl.length : ℤ) := by
  unfold currentItemIndex
  rw [if_neg hne]
  by_cases hidx : tl.findIdx (segContains e) < tl.length
  · simp only [hidx, if_pos]
    constructor
    · exact Int.ofNat_nonneg _
    · exact_mod_cast hidx
  · simp only [hidx, if_neg, if_false]
    by_cases htot : totalMs ≤ e
    · simp only [htot, if_pos]
      constructor <;> omega
    · simp only [htot, if_neg, if_false]
      constructor <;> omega

theorem currentItemIndex_of_first_contains (e : ℚ) (tl : List Segment)
    (totalMs : ℚ) (i : ℕ) (hc : containsAt tl e i)
    (hmin : ∀ j : ℕ, j < i → ¬ containsAt tl e j) :
    currentItemIndex e tl totalMs = (i : ℤ) := by
  obtain ⟨hi, hs, he⟩ := hc
  have hfind : tl.findIdx (segContains e) = i := by
    apply findIdx_eq_of_first (segContains e) tl i hi
    · exact (segContains_eq_true_iff e _).mpr ⟨hs, he⟩
    · intro j hj hji
      cases hb : segContains e (tl.get ⟨j, hj⟩) with
      | false => rfl
      | true =>
        exact absurd ⟨hj, (segContains_eq_true_iff e _).mp hb⟩ (hmin j hji)
  have hne : tl.length ≠ 0 := by omega
  unfold currentItemIndex
  rw [if_neg hne]
  simp only [hfind, hi, if_pos]

theorem currentItemIndex_of_no_contains (e : ℚ) (tl : List Segment)
    (totalMs : ℚ) (hnone : ∀ j : ℕ, ¬ containsAt tl e j) (hne : tl.length ≠ 0) :
    (totalMs ≤ e → currentItemIndex e tl totalMs = (tl.length : ℤ) - 1) ∧
    (e < totalMs → currentItemIndex e tl totalMs = 0) := by
  have hfind : tl.findIdx (segContains e) = tl.length := by
    apply findIdx_eq_length_of_none
    intro j hj
    cases hx : segContains e (tl.get ⟨j, hj⟩) with
    | false => rfl
    | true =>
      exact absurd ⟨hj, (segContains_eq_true_iff e _).mp hx⟩ (hnone j)
  unfold currentItemIndex
  rw [if_neg hne]
  simp only [hfind, lt_irrefl, if_false]
  constructor
  · intro h
    simp only [h, if_pos]
  · intro h
    have : ¬ totalMs ≤ e := not_le.mpr h
    simp only [this, if_neg, if_false]

/-- Claim C8, amended and proved: on every non-empty timeline the
active segment is derived containment-first (the fallback to the last
index applies only when no interval contains `elapsedMs` and the total
has been reached), and `next()`/`previous()` seek to the clamped
neighbor's `startMs` without touching the running state. -/
theorem C8_prev_next_derivation (tl : List Segment) (totalMs now : ℚ)
    (st : TransportState) (hne : tl.length ≠ 0) :
    prevNextSpec tl totalMs now st := by
  obtain ⟨hlo, hhi⟩ := currentItemIndex_bounds st.elapsedMs tl totalMs hne
  refine ⟨⟨hlo, hhi⟩,
    fun i hc hmin => currentItemIndex_of_first_contains st.elapsedMs tl totalMs i hc hmin,
    fun hnone h => (currentItemIndex_of_no_contains st.elapsedMs tl totalMs hnone hne).1 h,
    fun hnone h => (currentItemIndex_of_no_contains st.elapsedMs tl totalMs hnone hne).2 h,
    ?_, ?_⟩
  · have hn : (min ((tl.length : ℤ) - 1)
        (currentItemIndex st.elapsedMs tl totalMs + 1)).toNat < tl.length := by
      omega
    refine ⟨hn, ?_⟩
    unfold handleNext
    rw [if_neg hne]
    have hget : tl.get? (min ((tl.length : ℤ) - 1)
        (currentItemIndex st.elapsedMs tl totalMs + 1)).toNat
        = some (tl.get ⟨(min ((tl.length : ℤ) - 1)
            (currentItemIndex st.elapsedMs tl totalMs + 1)).toNat, hn⟩) :=
      List.get?_eq_get hn
    simp only [seekElapsed, hget, Option.map_some', Option.getD_some]
  · have hp : (max 0 (currentItemIndex st.elapsedMs tl totalMs - 1)).toNat
        < tl.length := by
      omega
    refine ⟨hp, ?_⟩
    unfold handlePrevious
    rw [if_neg hne]
    have hget : tl.get? (max 0 (currentItemIndex st.elapsedMs tl totalMs - 1)).toNat
        = some (tl.get ⟨(max 0
            (currentItemIndex st.elapsedMs tl totalMs - 1)).toNat, hp⟩) :=
      List.get?_eq_get hp
    simp only [seekElapsed, hget, Option.map_some', Option.getD_some]

theorem C8_prev_next_derivation_witness : prevNextSpec tlE totE 4000 stE2 :=
  C8_prev_next_derivation tlE totE 4000 stE2 (by rw [tlE_eq]; simp)

/-- The timeline on which the original C8 wording diverges from the
code: a 3-minute story then two 1-minute exercises.  `totalDurationMs`
is 120000 (exercises only) while the story segment is [0, 180000). -/
def clampItems : List Item :=
  [{ id := "story-1", type := ItemType.story, title := "Long intro",
     time := some 3, duration_minutes := none },
   { id := "1", type := ItemType.exercise, title := "A",
     time := none, duration_minutes := some 1 },
   { id := "2", type := ItemType.exercise, title := "B",
     time := none, duration_minutes := some 1 }]

/-- The transport sitting exactly at the (mismatched) total. -/
def stClamp : TransportState := { initialTransport with elapsedMs := 120000 }

/-- Claim C8, falsified at a concrete input: `elapsedMs` has reached
`totalDurationMs` (120000), so by the claim the active segment is the
LAST one and `next()` should stay at its `startMs` 240000; but the code
checks interval containment first — 120000 lies inside the story
segment [0, 180000), the active index is 0, and `next()` seeks to
180000 instead. -/
theorem C8_reached_total_not_last :
    totalDurationMs clampItems ≤ stClamp.elapsedMs ∧
    (handleNext (calculateItemTimings clampItems) (totalDurationMs clampItems)
        0 stClamp).elapsedMs = 180000 ∧
    seekElapsed (calculateItemTimings clampItems)
        ((calculateItemTimings clampItems).length - 1) = 240000 ∧
    (180000 : ℚ) ≠ 240000 := by
  have hne' : ItemType.exercise ≠ ItemType.story := by decide
  have htot : totalDurationMs clampItems = 120000 := by
    norm_num [totalDurationMs, totalDuration, clampItems]
  have htl : calculateItemTimings clampItems
      = [{ item := { id := "story-1", type := ItemType.story, title := "Long intro",
                     time := some 3, duration_minutes := none },
           uniqueIndex := 0, startMs := 0, endMs := 180000, durationMs := 180000,
           duration_minutes := 3 },
         { item := { id := "1", type := ItemType.exercise, title := "A",
                     time := none, duration_minutes := some 1 },
           uniqueIndex := 1, startMs := 180000, endMs := 240000, durationMs := 60000,
           duration_minutes := 1 },
         { item := { id := "2", type := ItemType.exercise, title := "B",
                     time := none, duration_minutes := some 1 },
           uniqueIndex := 2, startMs := 240000, endMs := 300000, durationMs := 60000,
           duration_minutes := 1 }] := by
    norm_num [calculateItemTimings, calcAux, itemDurationMinutes, clampItems, hne']
  refine ⟨?_, ?_, ?_, by norm_num⟩
  · rw [htot]
    norm_num [stClamp, initialTransport]
  · rw [htl, htot]
    norm_num [handleNext, currentItemIndex, segContains, List.findIdx_cons,
      seekElapsed, stClamp, initialTransport]
  · rw [htl]
    norm_num [seekElapsed]

/-! ### Story and practical storage: in-place update -/

/-- JavaScript `String.prototype.trim`, modelled on the character list
(dropping whitespace from both ends) so that it evaluates by kernel
reduction. -/
def strTrim (s : String) : String :=
  String.mk (((s.data.dropWhile Char.isWhitespace).reverse.dropWhile
    Char.isWhitespace).reverse)

/-- The payload accepted by `createStory`/`updateStory` (well-typed
fields; the `typeof` checks of the source are vacuous here). -/
structure StoryData where
  title : String
  text : String
  mood : Option String
  tags : List String
  time : ℚ
deriving DecidableEq, Repr

/-- A stored story element as written by `storyStorage.js`. -/
structure Story where
  id : String
  title : String
  text : String
  mood : String
  tags : List String
  time : ℚ
  type : String
deriving DecidableEq, Repr

/-- `validateStory` from `storyStorage.js` lines 80-108, keeping the
error messages and their order (the `typeof`/`Array.isArray` branches
cannot fire on well-typed input). -/
def validateStory (d : StoryData) : List String :=
  (if strTrim d.title = "" then ["title is required and must be a non-empty string"]
   else []) ++
  (if strTrim d.text = "" then ["text is required and must be a non-empty string"]
   else []) ++
  (if d.tags.any (fun t => strTrim t == "") then ["tags must not contain empty strings"]
   else []) ++
  (if d.time < 1 / 2 then ["time is required and must be at least 0.5 minutes"]
   else [])

/-- The result shape of `updateStory`. -/
inductive StoryResult where
  | success (story : Story)
  | failure (errors : List String)
deriving DecidableEq, Repr

/-- `updateStory` from `storyStorage.js` lines 162-199: validate, find
the index of the story with the given id, replace it in place with the
rebuilt record (keeping `id: id`), save.  The pair carries the returned
result and the stored list after the call. -/
def updateStory (stories : List Story) (id : String) (d : StoryData) :
    StoryResult × List Story :=
  let errors := validateStory d
  if errors ≠ [] then (StoryResult.failure errors, stories)
  else
    let idx := stories.findIdx (fun s => s.id == id)
    if idx < stories.length then
      let updated : Story :=
        { id := id, title := strTrim d.title, text := strTrim d.text,
          mood := strTrim (d.mood.getD ""), tags := d.tags.map strTrim,
          time := d.time, type := "story" }
      (StoryResult.success updated, stories.set idx updated)
    else (StoryResult.failure ["Story not found"], stories)

/-- The payload accepted by `createPractical`/`updatePractical`. -/
structure PracticalData where
  title : String
  instruction : String
  tags : List String
  time : ℚ
deriving DecidableEq, Repr

/-- A stored practical element as written by `practicalStorage.js`. -/
structure Practical where
  id : String
  title : String
  instruction : String
  tags : List String
  time : ℚ
  type : String
deriving DecidableEq, Repr

/-- `validatePractical` from `practicalStorage.js` (with
`MIN_TIME_MINUTES = 0.5` inlined into the message). -/
def validatePractical (d : PracticalData) : List String :=
  (if strTrim d.title = "" then ["title is required and must be a non-empty string"]
   else []) ++
  (if strTrim d.instruction = ""
   then ["instruction is required and must be a non-empty string"] else []) ++
  (if d.tags.any (fun t => strTrim t == "") then ["tags must not contain empty strings"]
   else []) ++
  (if d.time < 1 / 2 then ["time is required and must be at least 0.5 minutes"]
   else [])

/-- The result shape of `updatePractical`. -/
inductive PracticalResult where
  | success (practical : Practical)
  | failure (errors : List String)
deriving DecidableEq, Repr

/-- `updatePractical` from `practicalStorage.js` lines 774-810 of the
concatenated source: validate, find the practical by id, replace it in
place keeping `id: id` (tags sanitised through trim), save. -/
def updatePractical (practicals : List Practical) (id : String) (d : PracticalData) :
    PracticalResult × List Practical :=
  let errors := validatePractical d
  if errors ≠ [] then (PracticalResult.failure errors, practicals)
  else
    let idx := practicals.findIdx (fun p => p.id == id)
    if idx < practicals.length then
      let updated : Practical :=
        { id := id, title := strTrim d.title, instruction := strTrim d.instruction,
          tags := d.tags.map strTrim, time := d.time, type := "practical" }
      (PracticalResult.success updated, practicals.set idx updated)
    else (PracticalResult.failure ["Practical not found"], practicals)

/-- Claim C10: a successful `updateStory(X, data)` (and likewise
`updatePractical`) returns an item whose id is exactly `X`, leaves the
stored count unchanged, and leaves every position other than the
updated one untouched — in-place update without identifier churn. -/
theorem C10_update_in_place
    (stories : List Story) (X : String) (d : StoryData)
    (practicals : List Practical) (Y : String) (dp : PracticalData)
    (hv : validateStory d = []) (hm : ∃ s ∈ stories, s.id = X)
    (hvp : validatePractical dp = []) (hmp : ∃ p ∈ practicals, p.id = Y) :
    ((∃ st : Story, (updateStory stories X d).1 = StoryResult.success st ∧ st.id = X) ∧
      (updateStory stories X d).2.length = stories.length ∧
      ∀ j : ℕ, j ≠ stories.findIdx (fun s => s.id == X) →
        ((updateStory stories X d).2)[j]? = stories[j]?) ∧
    ((∃ pr : Practical,
        (updatePractical practicals Y dp).1 = PracticalResult.success pr ∧ pr.id = Y) ∧
      (updatePractical practicals Y dp).2.length = practicals.length ∧
      ∀ j : ℕ, j ≠ practicals.findIdx (fun p => p.id == Y) →
        ((updatePractical practicals Y dp).2)[j]? = practicals[j]?) := by
  have hidx : stories.findIdx (fun s => s.id == X) < stories.length :=
    List.findIdx_lt_length_of_exists
      (by obtain ⟨s, hs, hsx⟩ := hm; exact ⟨s, hs, by simp [hsx]⟩)
  have hidxp : practicals.findIdx (fun p => p.id == Y) < practicals.length :=
    List.findIdx_lt_length_of_exists
      (by obtain ⟨p, hp, hpy⟩ := hmp; exact ⟨p, hp, by simp [hpy]⟩)
  constructor
  · have heq : updateStory stories X d
        = (StoryResult.success
            { id := X, title := strTrim d.title, text := strTrim d.text,
              mood := strTrim (d.mood.getD ""), tags := d.tags.map strTrim,
              time := d.time, type := "story" },
           stories.set (stories.findIdx (fun s => s.id == X))
            { id := X, title := strTrim d.title, text := strTrim d.text,
              mood := strTrim (d.mood.getD ""), tags := d.tags.map strTrim,
              time := d.time, type := "story" }) := by
      simp [updateStory, hv, hidx]
    refine ⟨⟨_, by rw [heq], rfl⟩, ?_, ?_⟩
    · rw [heq]
      simp
    · intro j hj
      rw [heq]
      exact List.getElem?_set_ne (fun h => hj h.symm)
  · have heq : updatePractical practicals Y dp
        = (PracticalResult.success
            { id := Y, title := strTrim dp.title, instruction := strTrim dp.instruction,
              tags := dp.tags.map strTrim, time := dp.time, type := "practical" },
           practicals.set (practicals.findIdx (fun p => p.id == Y))
            { id := Y, title := strTrim dp.title, instruction := strTrim dp.instruction,
              tags := dp.tags.map strTrim, time := dp.time, type := "practical" }) := by
      simp [updatePractical, hvp, hidxp]
    refine ⟨⟨_, by rw [heq], rfl⟩, ?_, ?_⟩
    · rw [heq]
      simp
    · intro j hj
      rw [heq]
      exact List.getElem?_set_ne (fun h => hj h.symm)

/-- Two stored stories and two stored practicals for the concrete
instantiation of the update theorem. -/
def demoStories : List Story :=
  [{ id := "story-1", title := "A", text := "ta", mood := "Ruhig",
     tags := [], time := 1, type := "story" },
   { id := "story-2", title := "B", text := "tb", mood := "Ruhig",
     tags := [], time := 2, type := "story" }]

def demoPracticals : List Practical :=
  [{ id := "practical-1", title := "P", instruction := "ring the bell",
     tags := [], time := 1, type := "practical" }]

def demoStoryData : StoryData :=
  { title := "B2", text := "new text", mood := some "Energetisch",
    tags := ["calm"], time := 3 }

def demoPracticalData : PracticalData :=
  { title := "P2", instruction := "light the candle", tags := [], time := 1 / 2 }

theorem C10_update_in_place_witness :
    ((∃ st : Story, (updateStory demoStories "story-2" demoStoryData).1
        = StoryResult.success st ∧ st.id = "story-2") ∧
      (updateStory demoStories "story-2" demoStoryData).2.length = demoStories.length ∧
      ∀ j : ℕ, j ≠ demoStories.findIdx (fun s => s.id == "story-2") →
        ((updateStory demoStories "story-2" demoStoryData).2)[j]? = demoStories[j]?) ∧
    ((∃ pr : Practical, (updatePractical demoPracticals "practical-1" demoPracticalData).1
        = PracticalResult.success pr ∧ pr.id = "practical-1") ∧
      (updatePractical demoPracticals "practical-1" demoPracticalData).2.length
        = demoPracticals.length ∧
      ∀ j : ℕ, j ≠ demoPracticals.findIdx (fun p => p.id == "practical-1") →
        ((updatePractical demoPracticals "practical-1" demoPracticalData).2)[j]?
          = demoPracticals[j]?) :=
  C10_update_in_place demoStories "story-2" demoStoryData
    demoPracticals "practical-1" demoPracticalData
    (by
      have h1 : ¬ (strTrim demoStoryData.title = "") := by decide
      have h2 : ¬ (strTrim demoStoryData.text = "") := by decide
      have h3 : ¬ (demoStoryData.tags.any (fun t => strTrim t == "") = true) := by decide
      have ht : ¬ (demoStoryData.time < 1 / 2) := by norm_num [demoStoryData]
      simp [validateStory, h1, h2, h3, ht]
      norm_num [demoStoryData])
    ⟨demoStories.get ⟨1, by decide⟩, by decide, by decide⟩
    (by
      have h1 : ¬ (strTrim demoPracticalData.title = "") := by decide
      have h2 : ¬ (strTrim demoPracticalData.instruction = "") := by decide
      have h3 : ¬ (demoPracticalData.tags.any (fun t => strTrim t == "") = true) := by
        decide
      have ht : ¬ (demoPracticalData.time < 1 / 2) := by norm_num [demoPracticalData]
      simp [validatePractical, h1, h2, h3, ht]
      norm_num [demoPracticalData])
    ⟨demoPracticals.get ⟨0, by decide⟩, by decide, by decide⟩

end Yoga
